import Mathlib

/-!
Verification of the PDF-notes application (src/app.py) against its
specification.  The script is embedded shallowly: the two third-party
extraction libraries are abstracted by their observable behaviour on a
given byte input (whether opening succeeds and what each page access
yields), and every function of the script becomes a total Lean function
mirroring its control flow statement by statement.
-/

set_option maxHeartbeats 1000000
set_option maxRecDepth 40000

namespace PDFNotesApp

/-- Python str.strip(): drop whitespace characters from both ends of the
string.  Defined structurally over the character list so that it reduces
inside the kernel; whitespace is modelled by Char.isWhitespace. -/
def pyStrip (s : String) : String :=
  String.mk
    (((s.data.dropWhile Char.isWhitespace).reverse.dropWhile
        Char.isWhitespace).reverse)

/-- One page of a PDF as seen by an extraction library: the call that
extracts the page text either returns a string (a Python None result is
modelled as the empty string, matching the `or ""` in the source, line 94
and 107) or raises an exception. -/
inductive PageStep where
  | text (s : String)
  | raiseErr
deriving DecidableEq

/-- The behaviour of one extraction library (pypdf or pdfplumber) on one
byte input: whether opening the document succeeds, and the outcome of each
page access in order. -/
structure PathModel where
  opens : Bool
  pages : List PageStep
deriving DecidableEq

/-- A PDF byte input, abstracted by how each of the two extraction
libraries behaves on it. -/
structure Pdf where
  primary : PathModel
  secondary : PathModel
deriving DecidableEq

/-- The page loop shared by both attempts in extract_text_from_pdf_bytes
(src/app.py lines 92 to 96 and 105 to 109): walk the first n pages,
appending each page text whose trimmed form is nonempty; an exception
aborts the loop and is swallowed by the bare except clause, so the
fragments collected before it survive. -/
def collect : List PageStep → Nat → List String
  | _, 0 => []
  | [], _ + 1 => []
  | PageStep.raiseErr :: _, _ + 1 => []
  | PageStep.text s :: rest, n + 1 =>
      (if pyStrip s ≠ "" then [s] else []) ++ collect rest n

/-- Whether an exception is raised somewhere in the first n page accesses. -/
def raisesWithin : List PageStep → Nat → Bool
  | _, 0 => false
  | [], _ + 1 => false
  | PageStep.raiseErr :: _, _ + 1 => true
  | PageStep.text _ :: rest, n + 1 => raisesWithin rest n

/-- One extraction attempt (the body of one try block of
extract_text_from_pdf_bytes): if opening the reader fails nothing is
collected; otherwise the loop runs over `n = min(page_count, max_pages)`
pages (src/app.py lines 91 and 104). -/
def runPath (p : PathModel) (maxPages : Nat) : List String :=
  if p.opens then collect p.pages (min p.pages.length maxPages) else []

/-- Whether the attempt raises an exception anywhere (at open or during
the page loop).  The exception is always swallowed by the source. -/
def pathRaises (p : PathModel) (maxPages : Nat) : Bool :=
  !p.opens || raisesWithin p.pages (min p.pages.length maxPages)

/-- The observable outcome of extract_text_from_pdf_bytes: the fragment
list that was joined, whether the pdfplumber fallback block was entered,
and the returned string. -/
structure ExtractTrace where
  chunks : List String
  secondaryUsed : Bool
  text : String
deriving DecidableEq

/-- extract_text_from_pdf_bytes (src/app.py lines 86 to 113), instrumented
with the fragment list and the fallback decision: try pypdf first; if and
only if text_chunks is empty afterwards (line 100), run the pdfplumber
block; finally join with a blank line separator and trim (line 113). -/
def extractRun (pdf : Pdf) (maxPages : Nat) : ExtractTrace :=
  let text_chunks := runPath pdf.primary maxPages
  if text_chunks.isEmpty then
    let chunks2 := runPath pdf.secondary maxPages
    { chunks := chunks2, secondaryUsed := true,
      text := pyStrip (String.intercalate "\n\n" chunks2) }
  else
    { chunks := text_chunks, secondaryUsed := false,
      text := pyStrip (String.intercalate "\n\n" text_chunks) }

/-- The string returned by extract_text_from_pdf_bytes. -/
def extract_text_from_pdf_bytes (pdf : Pdf) (maxPages : Nat) : String :=
  (extractRun pdf maxPages).text

/-- The three sources consulted by load_api_key, abstracted by their
observable outcome: os.environ.get returns a string or nothing; the
st.secrets lookup returns a string or raises; reading openai_key.txt
returns the file content or raises. -/
structure KeySources where
  env : Option String
  secrets : Except Unit String
  file : Except Unit String

/-- load_api_key (src/app.py lines 41 to 61): the environment variable is
returned stripped when truthy; otherwise the secrets value is returned
stripped when the lookup succeeds and the value is truthy; otherwise the
file content is read and stripped and returned when the stripped content
is truthy; otherwise None.  The try blocks swallow every exception. -/
def load_api_key (s : KeySources) : Option String :=
  let step3 : Option String :=
    match s.file with
    | Except.ok content =>
        let k := pyStrip content
        if k ≠ "" then some k else none
    | Except.error _ => none
  let step2 : Option String :=
    match s.secrets with
    | Except.ok key => if key ≠ "" then some (pyStrip key) else step3
    | Except.error _ => step3
  match s.env with
  | some key => if key ≠ "" then some (pyStrip key) else step2
  | none => step2

/-- Splitting a character list at newline characters; used only to state
the first-non-blank-line reading of the specification. -/
def splitNL : List Char → List (List Char)
  | [] => [[]]
  | c :: rest =>
      if c = '\n' then [] :: splitNL rest
      else
        match splitNL rest with
        | [] => [[c]]
        | l :: ls => (c :: l) :: ls

/-- Modelled from the spec: the first non-blank line of a file content,
stripped; absent when every line is blank.  This is the behaviour the
specification ascribes to the file branch of the key loader. -/
def firstNonBlankLine (content : String) : Option String :=
  ((splitNL content.data).map String.mk).find? (fun l => pyStrip l ≠ "")
    |>.map pyStrip

/-- The TEMPLATES dict (src/app.py lines 27 to 33) as an association list
in insertion order, which is the order Python dict preserves. -/
def TEMPLATES : List (String × String) :=
  [("Textbook (concise)",
    "Write a concise textbook-style note for the topic. Use headings and short bullets."),
   ("5-mark exam answer",
    "Write a structured 5-mark exam answer: Intro, Etiology/Classification, Mechanism/Pathology, Clinical features/Uses, Management/Steps, High-yield bullets."),
   ("10-mark exam answer",
    "Write a structured 10-mark exam answer: Intro, Classification, Detailed Mechanism/Techniques, Indications, Complications, Comparative notes, Summary."),
   ("iOS Notes bullets (short)",
    "Write short, punchy iOS Notes-friendly bullets. Keep nesting to max 2 levels."),
   ("Pharmacology tabular (plain)",
    "Produce plain-text drug tables: Name, Class, MOA, Uses with mechanism, PK, Adverse effects, Contraindications, Pearls.")]

/-- Python dict.get(key, default) over an association list. -/
def dictGet (d : List (String × String)) (k : String) (dflt : String) :
    String :=
  match d.find? (fun p => p.1 = k) with
  | some p => p.2
  | none => dflt

/-- Python list(d.values())[0]; the source applies it only to the nonempty
TEMPLATES dict, so the empty-catalog value is irrelevant to every claim. -/
def firstTemplate (d : List (String × String)) : String :=
  (d.map Prod.snd).headD ""

/-- The prompt-template selection (src/app.py lines 122 to 125): a custom
prompt that is truthy and truthy after strip wins, stripped; otherwise the
catalog entry for the chosen style, defaulting to the first catalog
value. -/
def prompt_template (style_choice custom_prompt : String)
    (templates : List (String × String)) : String :=
  if custom_prompt ≠ "" ∧ pyStrip custom_prompt ≠ "" then
    pyStrip custom_prompt
  else
    dictGet templates style_choice (firstTemplate templates)

/-- Substring containment, used to state that one string appears verbatim
inside another. -/
def containsStr (s t : String) : Prop :=
  ∃ a b : String, s = a ++ t ++ b

/-- Python slicing raw_text[:n]: the first n characters (src/app.py line
133 with n = 40000). -/
def pySlice (s : String) (n : Nat) : String :=
  String.mk (s.data.take n)

/-- source_excerpt = raw_text[:40000] (src/app.py line 133). -/
def source_excerpt (raw_text : String) : String :=
  pySlice raw_text 40000

/-- The environment of one generation interaction: whether the generate
button was clicked, and what the single chat-completion call would do
(raise with a message, or return the first choice content). -/
structure GenEnv where
  buttonClicked : Bool
  apiResult : Except String String

/-- The user-visible outcome of the script run after extraction. -/
inductive ScriptResult where
  | stoppedNoText
  | idle
  | apiFailure (msg : String)
  | success (notes : String)
deriving DecidableEq

/-- The script from line 116 on, as a function of the extracted text and
the interaction environment, returning the outcome together with the
number of chat-completion calls made: empty text stops with an error
before any call (lines 117 to 119); otherwise nothing happens until the
button is clicked (line 130); a click makes exactly one call, whose
failure is caught and shown as an error built from the exception message
(line 149) and whose success shows the notes (lines 147 and 152 to 158). -/
def runInteraction (raw_text : String) (env : GenEnv) :
    ScriptResult × Nat :=
  if raw_text = "" then (ScriptResult.stoppedNoText, 0)
  else if env.buttonClicked = false then (ScriptResult.idle, 0)
  else
    match env.apiResult with
    | Except.error e =>
        (ScriptResult.apiFailure ("OpenAI request failed: " ++ e), 1)
    | Except.ok out => (ScriptResult.success out, 1)

/-- The whole per-upload pipeline: extract, then interact. -/
def runPipeline (pdf : Pdf) (maxPages : Nat) (env : GenEnv) :
    ScriptResult × Nat :=
  runInteraction (extract_text_from_pdf_bytes pdf maxPages) env

/-- The catalog entry stored for a style name, when present. -/
def lookupStyle (catalog : List (String × String)) (style : String) :
    Option String :=
  (catalog.find? (fun p => p.1 = style)).map Prod.snd

/-- Claim C1 as stated: the pdfplumber block is entered if and only if the
pypdf attempt raised an error or collected zero non-blank fragments. -/
def ClaimC1 : Prop :=
  ∀ (pdf : Pdf) (m : Nat),
    (extractRun pdf m).secondaryUsed =
      (pathRaises pdf.primary m || (runPath pdf.primary m).isEmpty)

/-- The key-resolution behaviour exactly as claim C4 words it: walk the
three sources in order and return the first non-empty value found,
stripped of surrounding whitespace; absent when every source is empty or
inaccessible. -/
def ClaimC4Resolve (s : KeySources) : Option String :=
  let fromFile : Option String :=
    match s.file with
    | Except.ok c => if c ≠ "" then some (pyStrip c) else none
    | Except.error _ => none
  let fromSecrets : Option String :=
    match s.secrets with
    | Except.ok k => if k ≠ "" then some (pyStrip k) else fromFile
    | Except.error _ => fromFile
  match s.env with
  | some k => if k ≠ "" then some (pyStrip k) else fromSecrets
  | none => fromSecrets

/-- Claim C4 as stated: load_api_key realises that first-non-empty-value
resolution on every source configuration. -/
def ClaimC4 : Prop :=
  ∀ s : KeySources, load_api_key s = ClaimC4Resolve s

/-- Claim C5 as stated: with the environment variable and the secrets
store absent, the loader returns the first non-blank line of the file,
stripped, for every file content. -/
def ClaimC5 : Prop :=
  ∀ content : String,
    load_api_key ⟨none, Except.error (), Except.ok content⟩ =
      firstNonBlankLine content

/-- Claim C6 as stated: non-blank custom text wins and the catalog
template of the selected style never appears in the result; blank custom
text selects the catalog entry, or the first entry when the style is
absent. -/
def ClaimC6 : Prop :=
  ∀ (style custom : String) (catalog : List (String × String)),
    (pyStrip custom ≠ "" →
      prompt_template style custom catalog = pyStrip custom ∧
      ∀ t, lookupStyle catalog style = some t →
        ¬ containsStr (prompt_template style custom catalog) t) ∧
    (pyStrip custom = "" →
      (∀ t, lookupStyle catalog style = some t →
        prompt_template style custom catalog = t) ∧
      (lookupStyle catalog style = none →
        prompt_template style custom catalog = firstTemplate catalog))

/-! Helper lemmas. -/

theorem collect_take :
    ∀ (n : Nat) (l : List PageStep), collect (l.take n) n = collect l n
  | 0, [] => rfl
  | 0, PageStep.raiseErr :: _ => rfl
  | 0, PageStep.text _ :: _ => rfl
  | _ + 1, [] => rfl
  | _ + 1, PageStep.raiseErr :: _ => rfl
  | n + 1, PageStep.text s :: rest => by
      show collect (PageStep.text s :: rest.take n) (n + 1) =
        collect (PageStep.text s :: rest) (n + 1)
      simp only [collect, collect_take n rest]

theorem collect_min_take (l : List PageStep) (m : Nat) :
    collect (l.take m) (min (l.take m).length m) =
      collect l (min l.length m) := by
  have hk : min m l.length ≤ m := Nat.min_le_left _ _
  calc collect (l.take m) (min (l.take m).length m)
      = collect (l.take m) (min m l.length) := by
        rw [List.length_take, Nat.min_eq_left hk]
    _ = collect ((l.take m).take (min m l.length)) (min m l.length) :=
        (collect_take _ _).symm
    _ = collect (l.take (min m l.length)) (min m l.length) := by
        rw [List.take_take, Nat.min_eq_left hk]
    _ = collect l (min m l.length) := collect_take _ _
    _ = collect l (min l.length m) := by rw [Nat.min_comm]

theorem runPath_take (b : Bool) (l : List PageStep) (m : Nat) :
    runPath ⟨b, l.take m⟩ m = runPath ⟨b, l⟩ m := by
  unfold runPath
  cases b
  · simp
  · rw [if_pos rfl, if_pos rfl]
    exact collect_min_take l m

theorem splitNL_eq_of_no_newline :
    ∀ l : List Char, '\n' ∉ l → splitNL l = [l]
  | [], _ => rfl
  | c :: rest, h => by
      have hc : ¬(c = '\n') := fun hce => h (hce ▸ List.mem_cons_self _ _)
      have hrest : '\n' ∉ rest := fun hm => h (List.mem_cons_of_mem _ hm)
      simp [splitNL, hc, splitNL_eq_of_no_newline rest hrest]

theorem not_containsStr_of_length_lt (s t : String)
    (h : s.length < t.length) : ¬ containsStr s t := by
  rintro ⟨a, b, rfl⟩
  simp [String.length_append] at h
  omega

/-! Claim theorems. -/

/-- Claim C1, counterexample: the claim says the fallback is attempted
whenever the primary path raises an error or collects zero fragments, but
on a PDF whose primary attempt collects one non-blank fragment and then
raises, the collected fragment survives and the fallback is skipped even
though an error was raised. -/
theorem claimC1_counterexample : ¬ ClaimC1 := by
  intro h
  exact absurd
    (h ⟨⟨true, [PageStep.text "a", PageStep.raiseErr]⟩, ⟨true, []⟩⟩ 2)
    (by decide)

/-- Claim C1, amended: the pdfplumber block is entered if and only if the
pypdf attempt collected zero non-blank fragments; in particular, whenever
the primary attempt collects at least one fragment - even if it raised an
error afterwards - the secondary extractor is never invoked. -/
theorem fallback_iff_primary_empty (pdf : Pdf) (m : Nat) :
    (extractRun pdf m).secondaryUsed = (runPath pdf.primary m).isEmpty ∧
    (runPath pdf.primary m ≠ [] →
      (extractRun pdf m).secondaryUsed = false) := by
  constructor
  · unfold extractRun
    cases h : (runPath pdf.primary m).isEmpty <;> simp [h]
  · intro hne
    unfold extractRun
    have h : (runPath pdf.primary m).isEmpty = false := by
      simpa [List.isEmpty_iff] using hne
    simp [h]

/-- Witness for the amended claim C1, at a PDF whose primary attempt
collects the fragment "a" and then raises. -/
theorem fallback_iff_primary_empty_witness :
    (extractRun ⟨⟨true, [PageStep.text "a", PageStep.raiseErr]⟩,
        ⟨true, [PageStep.text "z"]⟩⟩ 2).secondaryUsed = false :=
  (fallback_iff_primary_empty
    ⟨⟨true, [PageStep.text "a", PageStep.raiseErr]⟩,
     ⟨true, [PageStep.text "z"]⟩⟩ 2).2 (by decide)

/-- Claim C2: extract_text_from_pdf_bytes is a total function of the two
path behaviours (both try blocks swallow every exception), and when both
attempts collect zero fragments it returns exactly the empty string. -/
theorem extract_empty_of_both_empty (pdf : Pdf) (m : Nat)
    (h1 : runPath pdf.primary m = []) (h2 : runPath pdf.secondary m = []) :
    extract_text_from_pdf_bytes pdf m = "" := by
  unfold extract_text_from_pdf_bytes extractRun
  simp [h1, h2]
  decide

/-- Witness for claim C2: a PDF whose primary attempt sees one blank page
and whose secondary attempt fails to open yields the empty string. -/
theorem extract_empty_of_both_empty_witness :
    extract_text_from_pdf_bytes
      ⟨⟨true, [PageStep.text " "]⟩, ⟨false, [PageStep.text "z"]⟩⟩ 1 = "" :=
  extract_empty_of_both_empty
    ⟨⟨true, [PageStep.text " "]⟩, ⟨false, [PageStep.text "z"]⟩⟩ 1
    (by decide) (by decide)

/-- Claim C3: when the extracted text is empty the script stops with the
extraction error and makes zero chat-completion calls, and any run that
makes a call has non-empty extracted text. -/
theorem no_api_call_on_empty_text (pdf : Pdf) (m : Nat) (env : GenEnv) :
    (extract_text_from_pdf_bytes pdf m = "" →
      runPipeline pdf m env = (ScriptResult.stoppedNoText, 0)) ∧
    (0 < (runPipeline pdf m env).2 →
      extract_text_from_pdf_bytes pdf m ≠ "") := by
  constructor
  · intro h
    unfold runPipeline runInteraction
    simp [h]
  · intro hpos h
    unfold runPipeline runInteraction at hpos
    simp [h] at hpos

/-- Witness for claim C3: a PDF from which neither library opens gives
the terminal extraction error and zero API calls, even with the button
clicked and a healthy API. -/
theorem no_api_call_on_empty_text_witness :
    runPipeline ⟨⟨false, []⟩, ⟨false, []⟩⟩ 3
      ⟨true, Except.ok "notes"⟩ = (ScriptResult.stoppedNoText, 0) :=
  (no_api_call_on_empty_text ⟨⟨false, []⟩, ⟨false, []⟩⟩ 3
    ⟨true, Except.ok "notes"⟩).1 (by decide)

/-- Claim C8: the extracted text depends only on the first max_pages pages
of whichever extraction path runs - truncating both page lists to
max_pages leaves the result unchanged, since each loop runs over
min(page_count, max_pages) pages. -/
theorem extract_uses_only_first_max_pages (pdf : Pdf) (m : Nat) :
    extract_text_from_pdf_bytes pdf m =
      extract_text_from_pdf_bytes
        ⟨⟨pdf.primary.opens, pdf.primary.pages.take m⟩,
         ⟨pdf.secondary.opens, pdf.secondary.pages.take m⟩⟩ m := by
  unfold extract_text_from_pdf_bytes extractRun
  simp only [runPath_take]

/-- Claim C10: the joined fragment list of every extraction comes wholly
from one path - it equals the primary attempt's list or the secondary
attempt's list, the primary one whenever that is non-empty (including
after a partial raise) - and the returned text is built from exactly that
list. -/
theorem chunks_from_single_path (pdf : Pdf) (m : Nat) :
    ((extractRun pdf m).chunks = runPath pdf.primary m ∨
      (extractRun pdf m).chunks = runPath pdf.secondary m) ∧
    (runPath pdf.primary m ≠ [] →
      (extractRun pdf m).chunks = runPath pdf.primary m) ∧
    extract_text_from_pdf_bytes pdf m =
      pyStrip (String.intercalate "\n\n" (extractRun pdf m).chunks) := by
  unfold extract_text_from_pdf_bytes extractRun
  by_cases h : (runPath pdf.primary m).isEmpty
  · have heq : runPath pdf.primary m = [] := by
      simpa [List.isEmpty_iff] using h
    simp [h, heq]
  · have hne : runPath pdf.primary m ≠ [] := by
      simpa [List.isEmpty_iff] using h
    simp [h]

/-- Witness for claim C10, at a PDF whose primary attempt collects "a" and
then raises: the output fragments are exactly the primary ones. -/
theorem chunks_from_single_path_witness :
    (extractRun ⟨⟨true, [PageStep.text "a", PageStep.raiseErr]⟩,
        ⟨true, [PageStep.text "z"]⟩⟩ 2).chunks =
      runPath ⟨true, [PageStep.text "a", PageStep.raiseErr]⟩ 2 :=
  (chunks_from_single_path
    ⟨⟨true, [PageStep.text "a", PageStep.raiseErr]⟩,
     ⟨true, [PageStep.text "z"]⟩⟩ 2).2.1 (by decide)

/-- Claim C4, counterexample: with the environment variable absent, the
secrets lookup failing and the key file holding only whitespace, the file
value is non-empty, so the claim demands its stripped value (the empty
string), but the loader returns None - the file branch alone tests the
stripped content for truthiness. -/
theorem claimC4_counterexample : ¬ ClaimC4 := by
  intro h
  exact absurd (h ⟨none, Except.error (), Except.ok " "⟩) (by decide)

/-- Claim C4, amended: load_api_key walks environment variable, secrets
store and key file in that order; the environment and secrets values are
returned stripped whenever non-empty as read (so a whitespace-only value
yields the empty string), the file content is returned stripped only when
its stripped form is non-empty, None results when every source fails its
check, and a failing secrets lookup or file read is swallowed. -/
theorem load_api_key_order (s : KeySources) :
    (∀ k, s.env = some k → k ≠ "" →
      load_api_key s = some (pyStrip k)) ∧
    ((s.env = none ∨ s.env = some "") →
      ∀ k, s.secrets = Except.ok k → k ≠ "" →
        load_api_key s = some (pyStrip k)) ∧
    ((s.env = none ∨ s.env = some "") →
      (s.secrets = Except.error () ∨ s.secrets = Except.ok "") →
      ∀ c, s.file = Except.ok c → pyStrip c ≠ "" →
        load_api_key s = some (pyStrip c)) ∧
    ((s.env = none ∨ s.env = some "") →
      (s.secrets = Except.error () ∨ s.secrets = Except.ok "") →
      (s.file = Except.error () ∨
        ∃ c, s.file = Except.ok c ∧ pyStrip c = "") →
      load_api_key s = none) := by
  refine ⟨?_, ?_, ?_, ?_⟩
  · intro k hk hne
    simp [load_api_key, hk, hne]
  · rintro (he | he) k hk hne <;> simp [load_api_key, he, hk, hne]
  · rintro (he | he) (hs | hs) c hc hne <;>
      simp [load_api_key, he, hs, hc, hne]
  · rintro (he | he) (hs | hs) (hf | ⟨c, hc, hstrip⟩) <;>
      simp_all [load_api_key]

/-- Witness for the amended claim C4: each source populated in isolation
yields its stripped value, and an all-absent configuration yields None. -/
theorem load_api_key_order_witness :
    load_api_key ⟨some " k ", Except.error (), Except.error ()⟩ =
      some "k" ∧
    load_api_key ⟨none, Except.ok " s ", Except.error ()⟩ = some "s" ∧
    load_api_key ⟨none, Except.error (), Except.ok " f \n"⟩ = some "f" ∧
    load_api_key ⟨none, Except.error (), Except.error ()⟩ = none := by
  refine ⟨?_, ?_, ?_, ?_⟩
  · exact ((load_api_key_order
      ⟨some " k ", Except.error (), Except.error ()⟩).1 " k " rfl
        (by decide)).trans (by decide)
  · exact ((load_api_key_order
      ⟨none, Except.ok " s ", Except.error ()⟩).2.1 (Or.inl rfl) " s " rfl
        (by decide)).trans (by decide)
  · exact ((load_api_key_order
      ⟨none, Except.error (), Except.ok " f \n"⟩).2.2.1 (Or.inl rfl)
        (Or.inl rfl) " f \n" rfl (by decide)).trans (by decide)
  · exact (load_api_key_order
      ⟨none, Except.error (), Except.error ()⟩).2.2.2 (Or.inl rfl)
        (Or.inl rfl) (Or.inl rfl)

/-- Claim C5, counterexample: with a two-line key file, the loader
returns the whole content stripped, not the first non-blank line. -/
theorem claimC5_counterexample : ¬ ClaimC5 := by
  intro h
  exact absurd (h "abc\ndef") (by decide)

/-- Claim C5, amended: with the environment variable and the secrets
store absent, the loader returns the entire file content stripped of
surrounding whitespace when that is non-empty and None otherwise (also
None when the file read fails); this coincides with the first non-blank
line only for contents without a newline character. -/
theorem file_fallback_whole_content (content : String) :
    (load_api_key ⟨none, Except.error (), Except.ok content⟩ =
      if pyStrip content = "" then none else some (pyStrip content)) ∧
    (load_api_key ⟨none, Except.error (), Except.error ()⟩ = none) ∧
    ('\n' ∉ content.data →
      load_api_key ⟨none, Except.error (), Except.ok content⟩ =
        firstNonBlankLine content) := by
  refine ⟨?_, rfl, ?_⟩
  · by_cases h : pyStrip content = "" <;> simp [load_api_key, h]
  · intro hnl
    unfold firstNonBlankLine
    rw [splitNL_eq_of_no_newline content.data hnl]
    obtain ⟨l⟩ := content
    by_cases h : pyStrip (String.mk l) = "" <;>
      simp [load_api_key, h, List.find?]

/-- Witness for the amended claim C5: on a one-line file the loader
agrees with the first-non-blank-line reading. -/
theorem file_fallback_whole_content_witness :
    load_api_key ⟨none, Except.error (), Except.ok " xyz "⟩ =
      firstNonBlankLine " xyz " :=
  (file_fallback_whole_content " xyz ").2.2 (by decide)

/-- Claim C6, counterexample: when the custom text is itself the catalog
template of the selected style, the composed result is that template, so
the template does appear in the output even though custom text was
supplied. -/
theorem claimC6_counterexample : ¬ ClaimC6 := by
  intro h
  have h1 := (h "Textbook (concise)"
    "Write a concise textbook-style note for the topic. Use headings and short bullets."
    TEMPLATES).1 (by decide)
  exact h1.2
    "Write a concise textbook-style note for the topic. Use headings and short bullets."
    (by decide) ⟨"", "", by decide⟩

/-- Claim C6, amended: non-blank custom text wins outright - the result
is exactly the stripped custom text, so the catalog template of the
selected style is absent from it whenever the custom text itself does not
contain that template; blank custom text selects the catalog entry for
the style, or the first catalog value when the style is absent. -/
theorem prompt_template_selection (style custom : String)
    (catalog : List (String × String)) :
    (pyStrip custom ≠ "" →
      prompt_template style custom catalog = pyStrip custom ∧
      ∀ t, lookupStyle catalog style = some t →
        ¬ containsStr (pyStrip custom) t →
        ¬ containsStr (prompt_template style custom catalog) t) ∧
    (pyStrip custom = "" →
      (∀ t, lookupStyle catalog style = some t →
        prompt_template style custom catalog = t) ∧
      (lookupStyle catalog style = none →
        prompt_template style custom catalog = firstTemplate catalog)) := by
  constructor
  · intro hc
    have hcustom : custom ≠ "" := by
      intro he; rw [he] at hc; exact hc rfl
    have hres : prompt_template style custom catalog = pyStrip custom := by
      simp [prompt_template, hcustom, hc]
    refine ⟨hres, ?_⟩
    intro t _ hnc
    rw [hres]; exact hnc
  · intro hc
    have hres : prompt_template style custom catalog =
        dictGet catalog style (firstTemplate catalog) := by
      simp [prompt_template, hc]
    constructor
    · intro t ht
      rw [hres]
      unfold dictGet
      unfold lookupStyle at ht
      cases hf : catalog.find? (fun p => p.1 = style) with
      | none => rw [hf] at ht; simp at ht
      | some p =>
          rw [hf] at ht
          simp only [Option.map_some', Option.some.injEq] at ht
          simp [ht]
    · intro ht
      rw [hres]
      unfold dictGet
      unfold lookupStyle at ht
      cases hf : catalog.find? (fun p => p.1 = style) with
      | none => simp
      | some p => rw [hf] at ht; simp at ht

/-- Witness for the amended claim C6: custom text wins and the selected
template stays absent; a blank custom prompt selects the chosen style,
and an unknown style falls back to the first catalog value. -/
theorem prompt_template_selection_witness :
    prompt_template "5-mark exam answer" " my prompt " TEMPLATES
      = "my prompt" ∧
    (¬ containsStr
      (prompt_template "5-mark exam answer" " my prompt " TEMPLATES)
      "Write a structured 5-mark exam answer: Intro, Etiology/Classification, Mechanism/Pathology, Clinical features/Uses, Management/Steps, High-yield bullets.") ∧
    prompt_template "Textbook (concise)" " " TEMPLATES =
      "Write a concise textbook-style note for the topic. Use headings and short bullets." ∧
    prompt_template "no such style" "" TEMPLATES =
      "Write a concise textbook-style note for the topic. Use headings and short bullets." := by
  have h1 := (prompt_template_selection "5-mark exam answer" " my prompt "
      TEMPLATES).1 (by decide)
  have h2 := (prompt_template_selection "Textbook (concise)" " "
      TEMPLATES).2 (by decide)
  have h3 := (prompt_template_selection "no such style" "" TEMPLATES).2 rfl
  refine ⟨h1.1.trans (by decide), ?_, h2.1 _ (by decide), h3.2 (by decide)⟩
  exact h1.2 _ (by decide) (not_containsStr_of_length_lt _ _ (by decide))

/-- Claim C7: the source excerpt is the extracted text cut to its first
40000 characters - its character list is the 40000-prefix of the text's
list, a longer text gives exactly 40000 characters, and a text of at most
40000 characters passes through unchanged. -/
theorem source_excerpt_cap (raw : String) :
    (source_excerpt raw).data = raw.data.take 40000 ∧
    (40000 < raw.length → (source_excerpt raw).length = 40000) ∧
    (raw.length ≤ 40000 → source_excerpt raw = raw) := by
  obtain ⟨l⟩ := raw
  refine ⟨rfl, ?_, ?_⟩
  · intro h
    show (String.mk (l.take 40000)).length = 40000
    rw [String.length_mk, List.length_take]
    rw [String.length_mk] at h
    omega
  · intro h
    show String.mk (l.take 40000) = String.mk l
    rw [String.length_mk] at h
    rw [List.take_of_length_le h]

/-- Witness for claim C7: a 40001-character text is cut to exactly 40000
characters. -/
theorem source_excerpt_cap_witness :
    (source_excerpt (String.mk (List.replicate 40001 'a'))).length
      = 40000 :=
  (source_excerpt_cap (String.mk (List.replicate 40001 'a'))).2.1
    (by rw [String.length_mk, List.length_replicate]; omega)

/-- Claim C9: with non-empty extracted text and the button clicked, a
failing chat-completion call yields the error outcome whose message
embeds the exception message verbatim, after exactly one call (no retry);
no success outcome or notes are shown, and the same interaction with a
succeeding call yields the notes, so the failure leaves the interaction
resumable. -/
theorem api_failure_surfaced (raw : String) (env : GenEnv) (e : String)
    (hraw : raw ≠ "") (hclick : env.buttonClicked = true)
    (herr : env.apiResult = Except.error e) :
    runInteraction raw env =
      (ScriptResult.apiFailure ("OpenAI request failed: " ++ e), 1) ∧
    containsStr ("OpenAI request failed: " ++ e) e ∧
    (∀ out, (runInteraction raw env).1 ≠ ScriptResult.success out) ∧
    (∀ out, runInteraction raw ⟨true, Except.ok out⟩ =
      (ScriptResult.success out, 1)) := by
  have hrun : runInteraction raw env =
      (ScriptResult.apiFailure ("OpenAI request failed: " ++ e), 1) := by
    simp [runInteraction, hraw, hclick, herr]
  refine ⟨hrun, ⟨"OpenAI request failed: ", "", by simp⟩, ?_, ?_⟩
  · intro out
    rw [hrun]
    simp
  · intro out
    simp [runInteraction, hraw]

/-- Witness for claim C9: a concrete failing call surfaces its message
inside the shown error, with exactly one call made. -/
theorem api_failure_surfaced_witness :
    runInteraction "text" ⟨true, Except.error "boom"⟩ =
      (ScriptResult.apiFailure "OpenAI request failed: boom", 1) :=
  ((api_failure_surfaced "text" ⟨true, Except.error "boom"⟩ "boom"
    (by decide) rfl rfl).1).trans (by decide)

end PDFNotesApp
